import Mathlib

/-!
Shallow embedding of `src/setImmediate.js` (briancavalier/setImmediate).

The file models the task registry (the IIFE assigned to `tasks`), the
capability probes, the install block, and the postMessage-tier listener,
and proves the claims about them.

JavaScript modelling conventions:
  * JS values are `JSVal`; functions are identified by a `Nat` id, and the
    observable effect of calling one is recorded as a `CallEvent`.
  * Whether a given function call (or an evaluated script) raises is an
    oracle parameter (`thr`, `eth`); the registry code is modelled so that
    statements after a raising call do not execute, as in JS.
  * JS object property keys are strings: indexing `tasksByHandle` with a
    number first coerces it to its decimal string (`HandleVal.toKey`),
    exactly as JS `ToPropertyKey` does.
  * JS `string.substring` is index-based; strings here are `String` and
    the substring operations work on the character list (`String.data`),
    which agrees with JS for the payloads involved.
-/

namespace SetImmediate

/-- A JavaScript value, as far as the scheduler can observe it. Functions
are identified by an id; their behaviour lives in the oracles. -/
inductive JSVal where
  | undefined
  | null
  | boolean (b : Bool)
  | number (n : Int)
  | string (s : String)
  | fn (id : Nat)
deriving DecidableEq, Repr

/-- Model of JS `"" + v` (ToString) on the values the model carries. The source text
of a function object is host-dependent; it is modelled from its id. -/
def jsToString : JSVal → String
  | JSVal.undefined => "undefined"
  | JSVal.null => "null"
  | JSVal.boolean b => if b then "true" else "false"
  | JSVal.number n => toString n
  | JSVal.string s => s
  | JSVal.fn id => "function:" ++ toString id

/-- A registered task: `handler` and the captured `args`
(`Task(handler, args)` in the source). -/
structure Task where
  handler : JSVal
  args : List JSVal
deriving DecidableEq, Repr

/-- The observable effect of `Task.prototype.run`: either
`handler.apply(undefined, args)` on a function value, or
`eval("" + handler)` on anything else. -/
inductive CallEvent where
  | apply (callee : Nat) (receiver : JSVal) (args : List JSVal)
  | evalSource (src : String)
deriving DecidableEq, Repr

/-- Model of `Task.prototype.run`. Returns the event produced and whether the call
raised (`thr` decides for function calls, `eth` for evaluated source). -/
def Task.run (thr : Nat → List JSVal → Bool) (eth : String → Bool)
    (t : Task) : CallEvent × Bool :=
  match t.handler with
  | JSVal.fn id => (CallEvent.apply id JSVal.undefined t.args, thr id t.args)
  | h => (CallEvent.evalSource (jsToString h), eth (jsToString h))

/-- A value used to index `tasksByHandle`: the numeric handle (from the
timer / channel tiers) or the string extracted from a broadcast payload. -/
inductive HandleVal where
  | num (n : Nat)
  | str (s : String)
deriving DecidableEq, Repr

/-- JS property-key coercion: numbers become their decimal string. -/
def HandleVal.toKey : HandleVal → String
  | HandleVal.num n => toString n
  | HandleVal.str s => s

/-- Pointwise update of a string-keyed object, used for both property
assignment (`some v`) and `delete` (`none`). -/
def mapUpdate (m : String → Option Task) (k : String) (v : Option Task) :
    String → Option Task :=
  fun k' => if k' = k then v else m k'

/-- The registry state of the `tasks` IIFE: `nextHandle` and the
`tasksByHandle` object. -/
structure Registry where
  nextHandle : Nat
  tasksByHandle : String → Option Task

/-- The state at module initialisation: `nextHandle = 1` (the spec says
greater than zero) and an empty object. -/
def initialTasks : Registry :=
  { nextHandle := 1, tasksByHandle := fun _ => none }

/-- The registry operation `tasks.addFromSetImmediateArguments(args)`: `handler = args[0]`,
remaining arguments captured, task stored under the fresh handle
(post-increment), handle returned. -/
def addFromSetImmediateArguments (r : Registry) (args : List JSVal) :
    Nat × Registry :=
  let handler := args.headD JSVal.undefined
  let argsToHandle := args.drop 1
  let task : Task := { handler := handler, args := argsToHandle }
  let thisHandle := r.nextHandle
  (thisHandle,
    { nextHandle := r.nextHandle + 1,
      tasksByHandle :=
        mapUpdate r.tasksByHandle (toString thisHandle) (some task) })

/-- The registry operation `tasks.runIfPresent(handle)`. The source runs the task and only then
deletes its entry; when the run raises, the `delete` statement is never
reached, so the entry stays. Returns the new state, the event produced (if
any) and whether an exception propagated. -/
def runIfPresent (thr : Nat → List JSVal → Bool) (eth : String → Bool)
    (r : Registry) (handle : HandleVal) :
    Registry × Option CallEvent × Bool :=
  match r.tasksByHandle handle.toKey with
  | some task =>
      let res := task.run thr eth
      if res.2 then
        (r, some res.1, true)
      else
        ({ r with
            tasksByHandle := mapUpdate r.tasksByHandle handle.toKey none },
          some res.1, false)
  | none => (r, none, false)

/-- The registry operation `tasks.remove(handle)`: unconditional `delete tasksByHandle[handle]`. -/
def remove (r : Registry) (handle : HandleVal) : Registry :=
  { r with tasksByHandle := mapUpdate r.tasksByHandle handle.toKey none }

/-! ### Capability probing and installation -/

/-- The `onmessage` slot of the global object: either whatever value the
host had there, or the throwaway listener installed by the probe. -/
inductive Listener where
  | hostVal (v : JSVal)
  | probe
deriving DecidableEq, Repr

/-- The host environment, as read by the probes and the install block.
Boolean fields record truthiness of the corresponding global property.
`syncPostMessageDelivery` records whether the host delivers a
`postMessage` to its listener synchronously (before the call returns). -/
structure Host where
  setImmediate : Bool
  clearImmediate : Bool
  msSetImmediate : Bool
  msClearImmediate : Bool
  MessageChannel : Bool
  postMessage : Bool
  importScripts : Bool
  syncPostMessageDelivery : Bool
deriving DecidableEq, Repr

/-- The probe `hasMicrosoftImplementation()`:
`!!(global.msSetImmediate && global.msClearImmediate)`. -/
def hasMicrosoftImplementation (g : Host) : Bool :=
  g.msSetImmediate && g.msClearImmediate

/-- The probe `canUseMessageChannel()`: `!!global.MessageChannel`. -/
def canUseMessageChannel (g : Host) : Bool :=
  g.MessageChannel

/-- The probe `canUsePostMessage()`, with its mutation of `global.onmessage` made
explicit: returns the probe result together with the final value of
`global.onmessage`. When `postMessage` is missing or `importScripts`
exists, it returns early without touching the listener; otherwise it saves
the old listener, installs the throwaway one, posts an empty broadcast
(whose synchronous delivery, if any, clears the asynchrony flag), and
restores the old listener. -/
def canUsePostMessageProbe (g : Host) (onmessage0 : Listener) :
    Bool × Listener :=
  if !g.postMessage || g.importScripts then
    (false, onmessage0)
  else
    let oldOnMessage := onmessage0
    let _onmessage1 : Listener := Listener.probe
    let postMessageIsAsynchronous := !g.syncPostMessageDelivery
    let onmessage2 := oldOnMessage
    (postMessageIsAsynchronous, onmessage2)

/-- The boolean result of `canUsePostMessage()` (it does not depend on the
pre-existing listener). -/
def canUsePostMessage (g : Host) : Bool :=
  (canUsePostMessageProbe g (Listener.hostVal JSVal.undefined)).1

/-- The four mechanisms an adapter can be built on. -/
inductive Tier where
  | microsoft
  | messageChannel
  | postMessage
  | setTimeout
deriving DecidableEq, Repr

/-- What the install block did to the global surface: which adapter was
installed (`none` when installation was skipped) and whether a
`setImmediate` / `clearImmediate` function was attached. -/
structure InstallResult where
  tier : Option Tier
  setImmediateAttached : Bool
  clearImmediateAttached : Bool
deriving DecidableEq, Repr

/-- The install block at the bottom of the file: guarded by
`if (!global.setImmediate)`; inside, the Microsoft alias attaches both
functions, otherwise exactly one of the three adapters attaches
`setImmediate` and then `attachTo.clearImmediate = tasks.remove`. -/
def install (g : Host) : InstallResult :=
  if !g.setImmediate then
    if hasMicrosoftImplementation g then
      { tier := some Tier.microsoft,
        setImmediateAttached := true, clearImmediateAttached := true }
    else
      let chosen :=
        if canUseMessageChannel g then Tier.messageChannel
        else if canUsePostMessage g then Tier.postMessage
        else Tier.setTimeout
      { tier := some chosen,
        setImmediateAttached := true, clearImmediateAttached := true }
  else
    { tier := none,
      setImmediateAttached := false, clearImmediateAttached := false }

/-! ### The postMessage (broadcast) tier -/

/-- Number of JS code units, modelled on the character list (the payloads
involved are ASCII, where the two coincide). -/
def jsLength (s : String) : Nat := s.data.length

/-- JS `s.substring(0, n)`. -/
def jsSubstringTo (s : String) (n : Nat) : String := String.mk (s.data.take n)

/-- JS `s.substring(n)`. -/
def jsSubstringFrom (s : String) (n : Nat) : String := String.mk (s.data.drop n)

/-- The helper `isStringAndStartsWith(string, putativeStart)`:
`typeof string === "string" && string.substring(0, putativeStart.length) === putativeStart`. -/
def isStringAndStartsWith (v : JSVal) (putativeStart : String) : Bool :=
  match v with
  | JSVal.string s =>
      jsSubstringTo s (jsLength putativeStart) == putativeStart
  | _ => false

/-- An incoming `message` event, as far as `onGlobalMessage` inspects it:
whether `event.source === global`, and `event.data`. -/
structure MessageEvent where
  sourceIsGlobal : Bool
  data : JSVal
deriving DecidableEq, Repr

/-- The listener `onGlobalMessage(event)`: if the source is this window and the data is
a string starting with the per-process prefix `pfx`, extract what follows
the prefix (a string!) and call `runIfPresent` with it; otherwise do
nothing. -/
def onGlobalMessage (thr : Nat → List JSVal → Bool) (eth : String → Bool)
    (pfx : String) (r : Registry) (e : MessageEvent) :
    Registry × Option CallEvent × Bool :=
  match e.data with
  | JSVal.string s =>
      if e.sourceIsGlobal && isStringAndStartsWith (JSVal.string s) pfx then
        runIfPresent thr eth r
          (HandleVal.str (jsSubstringFrom s (jsLength pfx)))
      else (r, none, false)
  | _ => (r, none, false)

/-- The `setImmediate` attached by `installPostMessageImplementation`:
register the task, then post `MESSAGE_PREFIX + handle` to the global
channel. Returns the handle, the new registry and the posted payload. -/
def postMessageSetImmediate (pfx : String) (r : Registry)
    (args : List JSVal) : Nat × Registry × String :=
  let p := addFromSetImmediateArguments r args
  (p.1, p.2, pfx ++ toString p.1)

/-! ### Operation traces (for handle-freshness claims) -/

/-- One registry operation, as reachable from the public surface. -/
inductive Op where
  | addOp (args : List JSVal)
  | runOp (h : HandleVal)
  | removeOp (h : HandleVal)
deriving Repr

/-- Execute one operation; also report the handle returned when the
operation was a registration. -/
def step (thr : Nat → List JSVal → Bool) (eth : String → Bool)
    (r : Registry) : Op → Registry × Option Nat
  | Op.addOp args =>
      let p := addFromSetImmediateArguments r args
      (p.2, some p.1)
  | Op.runOp h => ((runIfPresent thr eth r h).1, none)
  | Op.removeOp h => (remove r h, none)

/-- Execute a list of operations, collecting the handles returned by the
registrations, in order. -/
def execTrace (thr : Nat → List JSVal → Bool) (eth : String → Bool)
    (r : Registry) : List Op → Registry × List Nat
  | [] => (r, [])
  | op :: ops =>
      let p := step thr eth r op
      let rest := execTrace thr eth p.1 ops
      (rest.1, p.2.toList ++ rest.2)

/-! ### Helper lemmas -/

/-- Running a handle never changes `nextHandle`. -/
theorem runIfPresent_nextHandle (thr : Nat → List JSVal → Bool)
    (eth : String → Bool) (r : Registry) (h : HandleVal) :
    (runIfPresent thr eth r h).1.nextHandle = r.nextHandle := by
  unfold runIfPresent
  cases hval : r.tasksByHandle h.toKey with
  | none => rfl
  | some t =>
      dsimp only
      split
      · rfl
      · rfl

/-- Removing a handle never changes `nextHandle`. -/
theorem remove_nextHandle (r : Registry) (h : HandleVal) :
    (remove r h).nextHandle = r.nextHandle := rfl

/-- The function `runIfPresent` only looks at the property key of the
handle value it is given. -/
theorem runIfPresent_key_eq (thr : Nat → List JSVal → Bool)
    (eth : String → Bool) (r : Registry) (h1 h2 : HandleVal)
    (hk : h1.toKey = h2.toKey) :
    runIfPresent thr eth r h1 = runIfPresent thr eth r h2 := by
  unfold runIfPresent
  rw [hk]

/-! ### Scenario used by C1 and C2: a registered callback that raises -/

/-- An oracle under which every function call raises. -/
def raiseAllCalls : Nat → List JSVal → Bool := fun _ _ => true

/-- An oracle under which no evaluated source raises. -/
def noEvalRaises : String → Bool := fun _ => false

/-- An oracle under which no function call raises. -/
def noCallRaises : Nat → List JSVal → Bool := fun _ _ => false

/-- The registry after scheduling one task (handler `fn 0`, no arguments)
from the initial state; its handle is `1`. -/
def registryWithTask1 : Registry :=
  (addFromSetImmediateArguments initialTasks [JSVal.fn 0]).2

/-- The first `runIfPresent(1)` on that registry, when the callback
raises. -/
def firstRaisingRun : Registry × Option CallEvent × Bool :=
  runIfPresent raiseAllCalls noEvalRaises registryWithTask1 (HandleVal.num 1)

/-- A second `runIfPresent(1)`, after the first one raised. -/
def secondRaisingRun : Registry × Option CallEvent × Bool :=
  runIfPresent raiseAllCalls noEvalRaises firstRaisingRun.1 (HandleVal.num 1)

/-- Claim C1 (code behaviour at the failing input): when the registered
callback raises, the first `runIfPresent(1)` invokes the task and the
exception propagates, and the second `runIfPresent(1)` invokes the very
same task again — the task executes twice, not at most once, and the
second invocation is not a no-op. -/
theorem c1_runIfPresent_twice_reruns_raising_task :
    firstRaisingRun.2.1 = some (CallEvent.apply 0 JSVal.undefined [])
    ∧ firstRaisingRun.2.2 = true
    ∧ secondRaisingRun.2.1 = some (CallEvent.apply 0 JSVal.undefined []) := by
  refine ⟨rfl, rfl, rfl⟩

/-- Claim C2 (code behaviour at the failing input): when the registered
callback raises, `runIfPresent` reaches the `delete` statement only after
`task.run()` returns, so the raising run leaves the entry for handle `1`
in the Pending Set, and a later `runIfPresent(1)` runs the task a second
time. -/
theorem c2_entry_survives_raising_run :
    (firstRaisingRun.1.tasksByHandle "1").isSome = true
    ∧ secondRaisingRun.2.1 = some (CallEvent.apply 0 JSVal.undefined []) := by
  refine ⟨rfl, rfl⟩

/-! ### C4: cancellation -/

/-- Claim C4: removing a handle whose entry is absent (already run,
already cancelled, or never issued) leaves the registry unchanged and
(being a total function) raises nothing; and after removing a
still-pending handle, the trigger's `runIfPresent` finds nothing: it
changes no state, produces no invocation, and raises nothing. -/
theorem c4_remove_is_noop_and_prevents_run
    (thr : Nat → List JSVal → Bool) (eth : String → Bool) :
    (∀ (r : Registry) (h : HandleVal),
        r.tasksByHandle h.toKey = none → remove r h = r)
    ∧ (∀ (r : Registry) (h : HandleVal),
        runIfPresent thr eth (remove r h) h = (remove r h, none, false)) := by
  constructor
  · intro r h hnone
    have hmap : mapUpdate r.tasksByHandle h.toKey none = r.tasksByHandle := by
      funext k'
      by_cases hk : k' = h.toKey
      · rw [mapUpdate, if_pos hk, hk, hnone]
      · rw [mapUpdate]
        exact (if_neg hk)
    unfold remove
    rw [hmap]
  · intro r h
    have hlook : (remove r h).tasksByHandle h.toKey = none := by
      unfold remove mapUpdate
      exact if_pos rfl
    unfold runIfPresent
    rw [hlook]

/-- Witness for C4 at a concrete input: handle `5` was never issued in the
initial state, so removing it is a no-op, and running it after the removal
does nothing. -/
theorem c4_witness :
    remove initialTasks (HandleVal.num 5) = initialTasks
    ∧ runIfPresent noCallRaises noEvalRaises
        (remove initialTasks (HandleVal.num 5)) (HandleVal.num 5)
        = (remove initialTasks (HandleVal.num 5), none, false) :=
  ⟨(c4_remove_is_noop_and_prevents_run noCallRaises noEvalRaises).1
      initialTasks (HandleVal.num 5) rfl,
   (c4_remove_is_noop_and_prevents_run noCallRaises noEvalRaises).2
      initialTasks (HandleVal.num 5)⟩

/-! ### C5: argument forwarding -/

/-- Claim C5: scheduling a function callback with arguments `a, b, c` and
then running the returned handle invokes exactly that callback, with
receiver `undefined` and exactly the argument sequence `[a, b, c]`. -/
theorem c5_argument_forwarding (thr : Nat → List JSVal → Bool)
    (eth : String → Bool) (id : Nat) (a b c : JSVal) (r : Registry) :
    (runIfPresent thr eth
        (addFromSetImmediateArguments r [JSVal.fn id, a, b, c]).2
        (HandleVal.num
          (addFromSetImmediateArguments r [JSVal.fn id, a, b, c]).1)).2.1
      = some (CallEvent.apply id JSVal.undefined [a, b, c]) := by
  have hlook :
      ((addFromSetImmediateArguments r [JSVal.fn id, a, b, c]).2).tasksByHandle
        (HandleVal.num
          (addFromSetImmediateArguments r [JSVal.fn id, a, b, c]).1).toKey
      = some { handler := JSVal.fn id, args := [a, b, c] } := by
    unfold addFromSetImmediateArguments
    simp [HandleVal.toKey, mapUpdate]
  unfold runIfPresent
  rw [hlook]
  simp only [Task.run]
  split
  · rfl
  · rfl

/-! ### C9: the broadcast probe restores the listener -/

/-- Claim C9: whatever value the global `onmessage` listener had before
`canUsePostMessage` ran, it has the same value when the probe returns,
on every path (early rejection, acceptance, or rejection after the
synchronous-delivery test). -/
theorem c9_probe_restores_onmessage (g : Host) (onmessage0 : Listener) :
    (canUsePostMessageProbe g onmessage0).2 = onmessage0 := by
  unfold canUsePostMessageProbe
  split
  · rfl
  · rfl

/-! ### C3: handle freshness -/

/-- Invariant of a trace of registry operations: `nextHandle` never
decreases, every handle the trace returned lies between the starting and
the final `nextHandle`, and the returned handles are strictly
increasing (hence pairwise distinct, never reused). -/
theorem execTrace_invariant (thr : Nat → List JSVal → Bool)
    (eth : String → Bool) (ops : List Op) (r : Registry) :
    r.nextHandle ≤ (execTrace thr eth r ops).1.nextHandle
    ∧ (∀ x ∈ (execTrace thr eth r ops).2,
        r.nextHandle ≤ x ∧ x < (execTrace thr eth r ops).1.nextHandle)
    ∧ List.Pairwise (· < ·) (execTrace thr eth r ops).2 := by
  induction ops generalizing r with
  | nil => simp [execTrace]
  | cons op ops ih =>
    cases op with
    | addOp args =>
      obtain ⟨ih1, ih2, ih3⟩ := ih (addFromSetImmediateArguments r args).2
      have hnext :
          ((addFromSetImmediateArguments r args).2).nextHandle
            = r.nextHandle + 1 := rfl
      rw [hnext] at ih1 ih2
      refine ⟨?_, ?_, ?_⟩
      · exact le_trans (Nat.le_succ _) ih1
      · intro x hx
        rcases List.mem_cons.mp hx with hx | hx
        · subst hx
          exact ⟨le_refl _, lt_of_lt_of_le (Nat.lt_succ_self _) ih1⟩
        · exact ⟨le_trans (Nat.le_succ _) (ih2 x hx).1, (ih2 x hx).2⟩
      · refine List.pairwise_cons.mpr ⟨?_, ih3⟩
        intro x hx
        exact lt_of_lt_of_le (Nat.lt_succ_self _) (ih2 x hx).1
    | runOp h =>
      obtain ⟨ih1, ih2, ih3⟩ := ih (runIfPresent thr eth r h).1
      rw [runIfPresent_nextHandle] at ih1 ih2
      exact ⟨ih1, fun x hx => ih2 x hx, ih3⟩
    | removeOp h =>
      obtain ⟨ih1, ih2, ih3⟩ := ih (remove r h)
      rw [remove_nextHandle] at ih1 ih2
      exact ⟨ih1, fun x hx => ih2 x hx, ih3⟩

/-- A trace consisting only of registrations returns the consecutive
handles starting at the current `nextHandle`. -/
theorem execTrace_adds (thr : Nat → List JSVal → Bool)
    (eth : String → Bool) (argss : List (List JSVal)) (r : Registry) :
    (execTrace thr eth r (argss.map Op.addOp)).2
      = List.range' r.nextHandle argss.length := by
  induction argss generalizing r with
  | nil => simp [execTrace]
  | cons a as ih =>
    have hnext :
        ((addFromSetImmediateArguments r a).2).nextHandle
          = r.nextHandle + 1 := rfl
    have hfst : (addFromSetImmediateArguments r a).1 = r.nextHandle := rfl
    simp only [List.map, execTrace, step, Option.toList, List.length]
    rw [ih, hnext, hfst]
    simp [List.range']

/-- Claim C3: from the fresh state, scheduling `N` tasks (any handlers,
any arguments) returns exactly the handles `1, 2, …, N` in scheduling
order; and along any trace of registrations, runs and removals, the
handles returned by the registrations are strictly increasing, so no two
registrations ever return the same handle. -/
theorem c3_handles_strictly_increasing_from_one
    (thr : Nat → List JSVal → Bool) (eth : String → Bool) :
    (∀ argss : List (List JSVal),
        (execTrace thr eth initialTasks (argss.map Op.addOp)).2
          = List.range' 1 argss.length)
    ∧ (∀ ops : List Op,
        List.Pairwise (· < ·) (execTrace thr eth initialTasks ops).2) :=
  ⟨fun argss => execTrace_adds thr eth argss initialTasks,
   fun ops => (execTrace_invariant thr eth ops initialTasks).2.2⟩

/-! ### C6: tier selection order -/

/-- Claim C6: the install block prefers the native Microsoft alias, then
the message-channel adapter, then the broadcast (postMessage) adapter,
then the zero-delay timer adapter, first match winning; a host on which
the earlier probes all fail falls through to the timer tier, and a host
with the channel primitive gets the channel tier no matter what the later
probes would say. -/
theorem c6_tier_fallthrough_order :
    (∀ g : Host, g.setImmediate = false →
        hasMicrosoftImplementation g = true →
        (install g).tier = some Tier.microsoft)
    ∧ (∀ g : Host, g.setImmediate = false →
        hasMicrosoftImplementation g = false →
        canUseMessageChannel g = true →
        (install g).tier = some Tier.messageChannel)
    ∧ (∀ g : Host, g.setImmediate = false →
        hasMicrosoftImplementation g = false →
        canUseMessageChannel g = false → canUsePostMessage g = true →
        (install g).tier = some Tier.postMessage)
    ∧ (∀ g : Host, g.setImmediate = false →
        hasMicrosoftImplementation g = false →
        canUseMessageChannel g = false → canUsePostMessage g = false →
        (install g).tier = some Tier.setTimeout) := by
  refine ⟨?_, ?_, ?_, ?_⟩
  · intro g h1 h2
    simp [install, h1, h2]
  · intro g h1 h2 h3
    simp [install, h1, h2, h3]
  · intro g h1 h2 h3 h4
    simp [install, h1, h2, h3, h4]
  · intro g h1 h2 h3 h4
    simp [install, h1, h2, h3, h4]

/-- A host that exposes only the zero-delay timer mechanism. -/
def timerOnlyHost : Host :=
  { setImmediate := false, clearImmediate := false,
    msSetImmediate := false, msClearImmediate := false,
    MessageChannel := false, postMessage := false,
    importScripts := false, syncPostMessageDelivery := false }

/-- A host that exposes the dedicated channel primitive and also a usable
asynchronous broadcast `postMessage` (and, implicitly, timers). -/
def channelAndBroadcastHost : Host :=
  { setImmediate := false, clearImmediate := false,
    msSetImmediate := false, msClearImmediate := false,
    MessageChannel := true, postMessage := true,
    importScripts := false, syncPostMessageDelivery := false }

/-- Witness for C6: on the timer-only host the timer adapter is selected,
and on a host where both the channel primitive and the broadcast
mechanism are available the channel adapter wins. -/
theorem c6_witness :
    (install timerOnlyHost).tier = some Tier.setTimeout
    ∧ (install channelAndBroadcastHost).tier = some Tier.messageChannel :=
  ⟨c6_tier_fallthrough_order.2.2.2 timerOnlyHost rfl rfl rfl rfl,
   c6_tier_fallthrough_order.2.1 channelAndBroadcastHost rfl rfl rfl⟩

/-! ### C7: broadcast-tier message filtering -/

/-- Claim C7: a message whose source is not this global object, or whose
data is not a string starting with the per-process prefix, makes the
broadcast listener do nothing: the registry is unchanged, no task is
invoked, and nothing is raised. -/
theorem c7_broadcast_message_filtering (thr : Nat → List JSVal → Bool)
    (eth : String → Bool) (pfx : String) (r : Registry) (e : MessageEvent)
    (hrej : e.sourceIsGlobal = false
        ∨ isStringAndStartsWith e.data pfx = false) :
    onGlobalMessage thr eth pfx r e = (r, none, false) := by
  rcases e with ⟨src, data⟩
  unfold onGlobalMessage
  dsimp only at hrej ⊢
  cases data with
  | string s =>
      rcases hrej with h | h
      · simp [h]
      · simp [h]
  | undefined => rfl
  | null => rfl
  | boolean b => rfl
  | number n => rfl
  | fn id => rfl

/-- Witness for C7: a non-string payload from a foreign source is ignored
on the concrete initial registry. -/
theorem c7_witness :
    onGlobalMessage noCallRaises noEvalRaises "p" initialTasks
      { sourceIsGlobal := false, data := JSVal.number 0 }
      = (initialTasks, none, false) :=
  c7_broadcast_message_filtering noCallRaises noEvalRaises "p" initialTasks
    { sourceIsGlobal := false, data := JSVal.number 0 } (Or.inl rfl)

/-! ### C8: installation skipping -/

/-- Modelled from the spec's words, for comparison with the code: a
"qualifying native schedule-and-cancel pair" means the host exposes both
`setImmediate` and `clearImmediate`. -/
def nativePairPresent (g : Host) : Bool :=
  g.setImmediate && g.clearImmediate

/-- A host that exposes a native `setImmediate` but no `clearImmediate`
(and nothing else). -/
def scheduleOnlyHost : Host :=
  { setImmediate := true, clearImmediate := false,
    msSetImmediate := false, msClearImmediate := false,
    MessageChannel := false, postMessage := false,
    importScripts := false, syncPostMessageDelivery := false }

/-- Counterexample to claim C8 as stated: on a host with a native
`setImmediate` but no cancel function, installation is skipped even
though no qualifying schedule-and-cancel pair exists — the guard tests
only `global.setImmediate`. -/
theorem c8_counterexample :
    (install scheduleOnlyHost).tier = none
    ∧ nativePairPresent scheduleOnlyHost = false := by
  refine ⟨rfl, rfl⟩

/-- Claim C8 as amended: installation is skipped exactly when the host
already exposes a native `setImmediate` (the cancel side is not
examined); when skipped, nothing is attached to the global surface, and
otherwise exactly one adapter is selected and both a schedule and a
cancel function are attached. -/
theorem c8_install_skip_amended (g : Host) :
    ((install g).tier = none ↔ g.setImmediate = true)
    ∧ (g.setImmediate = true →
        (install g).setImmediateAttached = false
        ∧ (install g).clearImmediateAttached = false)
    ∧ (g.setImmediate = false →
        (install g).tier.isSome = true
        ∧ (install g).setImmediateAttached = true
        ∧ (install g).clearImmediateAttached = true) := by
  cases hsi : g.setImmediate with
  | true => simp [install, hsi]
  | false =>
      refine ⟨?_, ?_, ?_⟩
      · simp only [install, hsi]
        simp only [Bool.not_false, if_true]
        constructor
        · intro hcontra
          exfalso
          revert hcontra
          split
          · intro hcontra
            exact Option.noConfusion hcontra
          · intro hcontra
            exact Option.noConfusion hcontra
        · intro hcontra
          exact absurd hcontra (by simp)
      · intro hcontra
        exact absurd hcontra (by simp)
      · intro _
        simp only [install, hsi, Bool.not_false, if_true]
        split
        · exact ⟨rfl, rfl, rfl⟩
        · exact ⟨rfl, rfl, rfl⟩

/-- Witness for C8: on the schedule-only host nothing is attached, and on
the timer-only host both functions are attached. -/
theorem c8_witness :
    (install scheduleOnlyHost).setImmediateAttached = false
    ∧ (install timerOnlyHost).clearImmediateAttached = true :=
  ⟨((c8_install_skip_amended scheduleOnlyHost).2.1 rfl).1,
   ((c8_install_skip_amended timerOnlyHost).2.2 rfl).2.2⟩

/-! ### C10: broadcast payload round trip -/

/-- Claim C10: for a handle issued by the broadcast-tier `setImmediate`,
the posted payload is the prefix concatenated with the handle's decimal
form; the listener's substring extraction recovers exactly that decimal
string; dispatching the resulting same-source message is exactly
`runIfPresent` at the numeric handle (the string key and the coerced
numeric key agree); that run fires exactly the task that was stored for
the handle; and no entry under any other key is touched. -/
theorem c10_payload_roundtrip (thr : Nat → List JSVal → Bool)
    (eth : String → Bool) (pfx : String) (r : Registry)
    (args : List JSVal) :
    (postMessageSetImmediate pfx r args).2.2
        = pfx ++ toString (postMessageSetImmediate pfx r args).1
    ∧ jsSubstringFrom (postMessageSetImmediate pfx r args).2.2
          (jsLength pfx)
        = toString (postMessageSetImmediate pfx r args).1
    ∧ onGlobalMessage thr eth pfx (postMessageSetImmediate pfx r args).2.1
        { sourceIsGlobal := true,
          data := JSVal.string (postMessageSetImmediate pfx r args).2.2 }
        = runIfPresent thr eth (postMessageSetImmediate pfx r args).2.1
            (HandleVal.num (postMessageSetImmediate pfx r args).1)
    ∧ (runIfPresent thr eth (postMessageSetImmediate pfx r args).2.1
          (HandleVal.num (postMessageSetImmediate pfx r args).1)).2.1
        = some ((Task.mk (args.headD JSVal.undefined)
            (args.drop 1)).run thr eth).1
    ∧ ∀ k : String,
        k ≠ toString (postMessageSetImmediate pfx r args).1 →
        ((onGlobalMessage thr eth pfx
            (postMessageSetImmediate pfx r args).2.1
            { sourceIsGlobal := true,
              data :=
                JSVal.string
                  (postMessageSetImmediate pfx r args).2.2 }).1).tasksByHandle
            k
          = ((postMessageSetImmediate pfx r args).2.1).tasksByHandle k := by
  set h := (postMessageSetImmediate pfx r args).1 with hh
  have hdrop : jsSubstringFrom (pfx ++ toString h) (jsLength pfx)
      = toString h := by
    unfold jsSubstringFrom jsLength
    rw [String.data_append, List.drop_left]
  have hstarts :
      isStringAndStartsWith (JSVal.string (pfx ++ toString h)) pfx
        = true := by
    show (jsSubstringTo (pfx ++ toString h) (jsLength pfx) == pfx) = true
    unfold jsSubstringTo jsLength
    rw [String.data_append, List.take_left]
    exact beq_self_eq_true pfx
  have hpayload : (postMessageSetImmediate pfx r args).2.2
      = pfx ++ toString h := rfl
  have hdisp : onGlobalMessage thr eth pfx
        (postMessageSetImmediate pfx r args).2.1
        { sourceIsGlobal := true,
          data := JSVal.string (postMessageSetImmediate pfx r args).2.2 }
      = runIfPresent thr eth (postMessageSetImmediate pfx r args).2.1
          (HandleVal.num h) := by
    rw [hpayload]
    unfold onGlobalMessage
    dsimp only
    rw [hstarts]
    simp only [Bool.and_true, if_true]
    rw [hdrop]
    exact runIfPresent_key_eq thr eth _ (HandleVal.str (toString h))
      (HandleVal.num h) rfl
  have hlook :
      ((postMessageSetImmediate pfx r args).2.1).tasksByHandle
          (HandleVal.num h).toKey
        = some (Task.mk (args.headD JSVal.undefined) (args.drop 1)) := by
    unfold postMessageSetImmediate addFromSetImmediateArguments at hh ⊢
    dsimp only at hh ⊢
    rw [hh]
    unfold mapUpdate HandleVal.toKey
    exact if_pos rfl
  have hrun : (runIfPresent thr eth (postMessageSetImmediate pfx r args).2.1
        (HandleVal.num h)).2.1
      = some ((Task.mk (args.headD JSVal.undefined)
          (args.drop 1)).run thr eth).1 := by
    unfold runIfPresent
    rw [hlook]
    dsimp only
    split
    · rfl
    · rfl
  refine ⟨hpayload, hdrop, hdisp, hrun, ?_⟩
  intro k hk
  rw [hdisp]
  unfold runIfPresent
  rw [hlook]
  dsimp only
  split
  · rfl
  · unfold mapUpdate HandleVal.toKey
    dsimp only
    rw [if_neg hk]

/-- Witness for C10 at a concrete input: one task scheduled from the
fresh state through the broadcast tier; its run fires the stored task,
and the entry under the unrelated key `"9"` is untouched by the message
dispatch. -/
theorem c10_witness :
    (runIfPresent noCallRaises noEvalRaises
        (postMessageSetImmediate "p" initialTasks
          [JSVal.fn 0, JSVal.number 7]).2.1
        (HandleVal.num
          (postMessageSetImmediate "p" initialTasks
            [JSVal.fn 0, JSVal.number 7]).1)).2.1
      = some ((Task.mk
          (([JSVal.fn 0, JSVal.number 7]).headD JSVal.undefined)
          (([JSVal.fn 0, JSVal.number 7]).drop 1)).run
            noCallRaises noEvalRaises).1
    ∧ ((onGlobalMessage noCallRaises noEvalRaises "p"
          (postMessageSetImmediate "p" initialTasks
            [JSVal.fn 0, JSVal.number 7]).2.1
          { sourceIsGlobal := true,
            data := JSVal.string
              (postMessageSetImmediate "p" initialTasks
                [JSVal.fn 0, JSVal.number 7]).2.2 }).1).tasksByHandle "9"
        = ((postMessageSetImmediate "p" initialTasks
            [JSVal.fn 0, JSVal.number 7]).2.1).tasksByHandle "9" :=
  ⟨(c10_payload_roundtrip noCallRaises noEvalRaises "p" initialTasks
      [JSVal.fn 0, JSVal.number 7]).2.2.2.1,
   (c10_payload_roundtrip noCallRaises noEvalRaises "p" initialTasks
      [JSVal.fn 0, JSVal.number 7]).2.2.2.2 "9" (by decide)⟩

end SetImmediate
